import Mathlib

/-!
Verification of the core behaviours of the Backend-Copy Express server:
the per-IP fixed-window rate limiter, the request validator for the
generation route, the generation route's best-effort persistence, the
Hotmart webhook dispatcher with its subscription-lifecycle handlers, the
Google-ads post-processing of generated content, and the stats route.

Timestamps (JavaScript `Date.now()` millisecond values) are modelled as
integers; the in-memory rate-limit map, the `user_subscriptions` table and
the `generated_content` table are modelled as explicit functional state.
-/

namespace BackendCopy

/-! ## Rate limiter (`rateLimit` middleware) -/

/-- Window size in milliseconds: `15 * 60 * 1000` from the source. -/
def windowMs : Int := 15 * 60 * 1000

/-- Maximum requests per window: `50` from the source. -/
def maxRequests : Nat := 50

/-- The fixed HTTP 429 message returned on rate limiting. -/
def rateLimitMsg : String := "Muitas requisições. Tente novamente em 15 minutos."

/-- An entry of `rateLimitMap` for one client key: `{ count, startTime }`. -/
structure RateLimitEntry where
  count : Nat
  startTime : Int
deriving DecidableEq, Repr

/-- Outcome of the middleware for one request: pass control on
(`next()`) or answer with an HTTP status and error message. -/
inductive RLResult where
  | allow
  | reject (status : Nat) (msg : String)
deriving DecidableEq, Repr

/-- One execution of the `rateLimit` middleware for a single client key,
given that key's entry in `rateLimitMap` (or `none` if absent) and the
current time `now`.  Returns the key's new entry and the outcome.  Mirrors
the source: no entry creates `{count: 1, startTime: now}` and allows;
`now - startTime > windowMs` resets to `{count: 1, startTime: now}` and
allows; otherwise `count >= maxRequests` rejects with 429 leaving the
entry untouched, and else the count is incremented and the request is
allowed. -/
def rateLimitStep : Option RateLimitEntry → Int → Option RateLimitEntry × RLResult
  | none, now => (some { count := 1, startTime := now }, RLResult.allow)
  | some e, now =>
    if now - e.startTime > windowMs then
      (some { count := 1, startTime := now }, RLResult.allow)
    else if e.count ≥ maxRequests then
      (some e, RLResult.reject 429 rateLimitMsg)
    else
      (some { e with count := e.count + 1 }, RLResult.allow)

/-- Run the middleware over a list of request times for one client key,
threading the key's entry; returns the final entry and the per-request
outcomes in order. -/
def rateLimitRun : Option RateLimitEntry → List Int → Option RateLimitEntry × List RLResult
  | st, [] => (st, [])
  | st, t :: ts =>
    let p := rateLimitStep st t
    let q := rateLimitRun p.1 ts
    (q.1, p.2 :: q.2)

lemma rateLimitRun_in_window (ts : List Int) (c : Nat) (t1 : Int)
    (hin : ∀ t ∈ ts, t - t1 ≤ windowMs) (hc : 1 ≤ c)
    (hlen : c + ts.length ≤ maxRequests) :
    rateLimitRun (some { count := c, startTime := t1 }) ts
      = (some { count := c + ts.length, startTime := t1 },
         List.replicate ts.length RLResult.allow) := by
  induction ts generalizing c with
  | nil => simp [rateLimitRun]
  | cons t ts ih =>
    have ht : t - t1 ≤ windowMs := hin t (List.mem_cons_self t ts)
    have hcnt : c < maxRequests := by
      have := ts.length
      simp [List.length_cons] at hlen
      omega
    have hstep : rateLimitStep (some { count := c, startTime := t1 }) t
        = (some { count := c + 1, startTime := t1 }, RLResult.allow) := by
      simp [rateLimitStep, not_lt.mpr ht, Nat.not_le.mpr hcnt]
    have hrest := ih (c + 1) (fun x hx => hin x (List.mem_cons_of_mem _ hx))
      (by omega) (by simp [List.length_cons] at hlen; omega)
    simp [rateLimitRun, hstep, hrest, List.replicate_succ]
    omega

/-- C1: with the fixed configuration (window 900000 ms, 50 requests per
window), a client's first 50 requests inside one window are all allowed,
the counter then stands at 50 with the window anchored at the first
request time, and a 51st request arriving while the window is still open
(`now - windowStart ≤ windowMs`) is rejected with HTTP 429 and the fixed
retry message, leaving the counter entry unchanged. -/
theorem rateLimit_first50_allowed_51st_rejected
    (t1 : Int) (ts : List Int) (t51 : Int)
    (hlen : ts.length = 49)
    (hin : ∀ t ∈ ts, t - t1 ≤ windowMs)
    (h51 : t51 - t1 ≤ windowMs) :
    windowMs = 900000 ∧ maxRequests = 50 ∧
    (rateLimitRun none (t1 :: ts)).2 = List.replicate 50 RLResult.allow ∧
    (rateLimitRun none (t1 :: ts)).1 = some { count := 50, startTime := t1 } ∧
    rateLimitStep (rateLimitRun none (t1 :: ts)).1 t51
      = (some { count := 50, startTime := t1 }, RLResult.reject 429 rateLimitMsg) := by
  have hfirst : rateLimitStep none t1
      = (some { count := 1, startTime := t1 }, RLResult.allow) := rfl
  have hrest := rateLimitRun_in_window ts 1 t1 hin (le_refl 1)
    (by simp [hlen, maxRequests])
  have hrun : rateLimitRun none (t1 :: ts)
      = (some { count := 50, startTime := t1 },
         RLResult.allow :: List.replicate ts.length RLResult.allow) := by
    simp [rateLimitRun, hfirst, hrest, hlen]
  refine ⟨rfl, rfl, ?_, ?_, ?_⟩
  · rw [hrun]; simp [hlen]
  · rw [hrun]
  · rw [hrun]
    simp [rateLimitStep, not_lt.mpr h51, maxRequests]

/-- Witness for C1 at the concrete run: all 50 requests at time 0,
followed by a 51st request at time 900000 (exactly at the boundary). -/
theorem rateLimit_first50_allowed_51st_rejected_witness :
    windowMs = 900000 ∧ maxRequests = 50 ∧
    (rateLimitRun none ((0 : Int) :: List.replicate 49 (0 : Int))).2
      = List.replicate 50 RLResult.allow ∧
    (rateLimitRun none ((0 : Int) :: List.replicate 49 (0 : Int))).1
      = some { count := 50, startTime := 0 } ∧
    rateLimitStep (rateLimitRun none ((0 : Int) :: List.replicate 49 (0 : Int))).1 900000
      = (some { count := 50, startTime := 0 }, RLResult.reject 429 rateLimitMsg) :=
  rateLimit_first50_allowed_51st_rejected 0 (List.replicate 49 0) 900000
    (by simp)
    (by intro t ht; rw [List.eq_of_mem_replicate ht]; simp [windowMs])
    (by simp [windowMs])

/-- C4: the limiter resets an entry to `{count := 1, startTime := now}`
and allows exactly when `now - startTime` is strictly greater than the
window size.  A request at exactly `now - startTime = windowMs` with the
counter at or above the maximum is still counted against the old window
and rejected; any request strictly past the boundary — even one that
would otherwise have been the 51st — is allowed with a fresh window; and
no request inside the window ever moves the window anchor. -/
theorem rateLimit_reset_strictly_after_boundary
    (c : Nat) (s nowEq nowAfter : Int)
    (heq : nowEq - s = windowMs)
    (hc : c ≥ maxRequests)
    (hafter : nowAfter - s > windowMs) :
    rateLimitStep (some { count := c, startTime := s }) nowEq
      = (some { count := c, startTime := s }, RLResult.reject 429 rateLimitMsg) ∧
    rateLimitStep (some { count := c, startTime := s }) nowAfter
      = (some { count := 1, startTime := nowAfter }, RLResult.allow) ∧
    (∀ t : Int, ¬ t - s > windowMs →
      Option.map RateLimitEntry.startTime
        (rateLimitStep (some { count := c, startTime := s }) t).1 = some s) := by
  refine ⟨?_, ?_, ?_⟩
  · simp [rateLimitStep, heq, hc]
  · simp [rateLimitStep, hafter]
  · intro t ht
    simp only [rateLimitStep, if_neg ht]
    by_cases h : c ≥ maxRequests <;> simp [h]

/-- Witness for C4 at `c = 50`, `s = 0`, a boundary request at
time 900000 and a post-boundary request at time 900001. -/
theorem rateLimit_reset_strictly_after_boundary_witness :
    rateLimitStep (some { count := 50, startTime := 0 }) 900000
      = (some { count := 50, startTime := 0 }, RLResult.reject 429 rateLimitMsg) ∧
    rateLimitStep (some { count := 50, startTime := 0 }) 900001
      = (some { count := 1, startTime := 900001 }, RLResult.allow) ∧
    (∀ t : Int, ¬ t - (0 : Int) > windowMs →
      Option.map RateLimitEntry.startTime
        (rateLimitStep (some { count := 50, startTime := 0 }) t).1 = some 0) :=
  rateLimit_reset_strictly_after_boundary 50 0 900000 900001
    (by simp [windowMs]) (by simp [maxRequests]) (by simp [windowMs])

/-! ## Subscription store and Hotmart webhook dispatcher -/

/-- The `buyer` object of a Hotmart webhook payload, as used by the
handlers (only `email` is read). -/
structure WebhookBuyer where
  email : String
deriving DecidableEq, Repr

/-- The `product` object of a Hotmart webhook payload. -/
structure WebhookProduct where
  id : String
  name : String
deriving DecidableEq, Repr

/-- The `purchase` object of a Hotmart webhook payload. -/
structure WebhookPurchase where
  transaction : String
deriving DecidableEq, Repr

/-- The `data` object of a webhook envelope; each field may be absent
(JavaScript `undefined`). -/
structure WebhookData where
  buyer : Option WebhookBuyer
  product : Option WebhookProduct
  purchase : Option WebhookPurchase
deriving DecidableEq, Repr

/-- A webhook envelope: the `event` string tag and the optional `data`
payload (the whole `data` field may be absent from the request body). -/
structure WebhookEnvelope where
  event : String
  data : Option WebhookData
deriving DecidableEq, Repr

/-- A row of the `user_subscriptions` table, with the columns the
handlers write.  Timestamps are integer milliseconds; the three
transition timestamps are nullable. -/
structure SubscriptionRecord where
  user_email : String
  product_id : String
  product_name : String
  purchase_token : String
  status : String
  starts_at : Int
  ends_at : Int
  canceled_at : Option Int
  refunded_at : Option Int
  chargeback_at : Option Int
  created_at : Int
deriving DecidableEq, Repr

/-- Thirty days in milliseconds, `30 * 24 * 60 * 60 * 1000` from the
source. -/
def thirtyDaysMs : Int := 30 * 24 * 60 * 60 * 1000

/-- The supabase `upsert(..., { onConflict: 'user_email' })` call of
`handlePurchaseApproved`: if a row with the buyer's email exists, the
supplied columns are overwritten on that row (columns not in the payload
keep their values); otherwise a fresh row is inserted with the three
transition timestamps null. -/
def upsertSubscription (db : List SubscriptionRecord) (b : WebhookBuyer)
    (p : WebhookProduct) (pu : WebhookPurchase) (now : Int) :
    List SubscriptionRecord :=
  if db.any (fun r => r.user_email = b.email) then
    db.map (fun r =>
      if r.user_email = b.email then
        { r with
          user_email := b.email
          product_id := p.id
          product_name := p.name
          purchase_token := pu.transaction
          status := "active"
          starts_at := now
          ends_at := now + thirtyDaysMs
          created_at := now }
      else r)
  else
    db ++ [{ user_email := b.email
             product_id := p.id
             product_name := p.name
             purchase_token := pu.transaction
             status := "active"
             starts_at := now
             ends_at := now + thirtyDaysMs
             canceled_at := none
             refunded_at := none
             chargeback_at := none
             created_at := now }]

/-- The supabase `.update({...}).eq('user_email', email)` call shared by
the cancel/refund/chargeback handlers: apply `f` to every row whose
`user_email` matches. -/
def updateSubscriptionRows (db : List SubscriptionRecord) (email : String)
    (f : SubscriptionRecord → SubscriptionRecord) : List SubscriptionRecord :=
  db.map (fun r => if r.user_email = email then f r else r)

/-- Row update performed by `handlePurchaseCanceled`:
`{ status: 'canceled', canceled_at: now }`. -/
def cancelRow (now : Int) (r : SubscriptionRecord) : SubscriptionRecord :=
  { r with status := "canceled", canceled_at := some now }

/-- Row update performed by `handlePurchaseRefunded`:
`{ status: 'refunded', refunded_at: now }`. -/
def refundRow (now : Int) (r : SubscriptionRecord) : SubscriptionRecord :=
  { r with status := "refunded", refunded_at := some now }

/-- Row update performed by `handlePurchaseChargeback`:
`{ status: 'chargeback', chargeback_at: now }`. -/
def chargebackRow (now : Int) (r : SubscriptionRecord) : SubscriptionRecord :=
  { r with status := "chargeback", chargeback_at := some now }

/-- Message of the TypeError raised when a handler reads a property of an
absent `data` object. -/
def undefDataMsg : String := "Cannot read properties of undefined"

/-- The `handlePurchaseApproved` function.  When the `data` object itself
is absent, the initial `logger.info` access `data.buyer` throws before
the handler's try block, so the error propagates (`Except.error`).  When
`data` is present but `buyer`/`product`/`purchase` is missing, the
TypeError is raised inside the handler's own try/catch and swallowed, so
the store is left unchanged and no error propagates.  Otherwise the
upsert runs. -/
def handlePurchaseApproved (data : Option WebhookData) (now : Int)
    (db : List SubscriptionRecord) : Except String (List SubscriptionRecord) :=
  match data with
  | none => Except.error undefDataMsg
  | some d =>
    match d.buyer, d.product, d.purchase with
    | some b, some p, some pu => Except.ok (upsertSubscription db b p pu now)
    | _, _, _ => Except.ok db

/-- The `handlePurchaseComplete` function: logs only, mutates nothing; it
throws only when `data` itself is absent (the log line reads
`data.buyer`). -/
def handlePurchaseComplete (data : Option WebhookData)
    (db : List SubscriptionRecord) : Except String (List SubscriptionRecord) :=
  match data with
  | none => Except.error undefDataMsg
  | some _ => Except.ok db

/-- The `handlePurchaseCanceled` function: update matching rows to
status `canceled` with `canceled_at = now`; a missing `buyer` raises a
TypeError inside the handler's try/catch, leaving the store unchanged. -/
def handlePurchaseCanceled (data : Option WebhookData) (now : Int)
    (db : List SubscriptionRecord) : Except String (List SubscriptionRecord) :=
  match data with
  | none => Except.error undefDataMsg
  | some d =>
    match d.buyer with
    | some b => Except.ok (updateSubscriptionRows db b.email (cancelRow now))
    | none => Except.ok db

/-- The `handlePurchaseRefunded` function: update matching rows to
status `refunded` with `refunded_at = now`. -/
def handlePurchaseRefunded (data : Option WebhookData) (now : Int)
    (db : List SubscriptionRecord) : Except String (List SubscriptionRecord) :=
  match data with
  | none => Except.error undefDataMsg
  | some d =>
    match d.buyer with
    | some b => Except.ok (updateSubscriptionRows db b.email (refundRow now))
    | none => Except.ok db

/-- The `handlePurchaseChargeback` function: update matching rows to
status `chargeback` with `chargeback_at = now`. -/
def handlePurchaseChargeback (data : Option WebhookData) (now : Int)
    (db : List SubscriptionRecord) : Except String (List SubscriptionRecord) :=
  match data with
  | none => Except.error undefDataMsg
  | some d =>
    match d.buyer with
    | some b => Except.ok (updateSubscriptionRows db b.email (chargebackRow now))
    | none => Except.ok db

/-- The `switch (event)` dispatch of `POST /webhook/hotmart`.  Returns
the handler's outcome together with the `logger.warn` messages emitted
by the dispatcher itself (the default branch logs the unknown tag). -/
def processEvent (env : WebhookEnvelope) (now : Int)
    (db : List SubscriptionRecord) :
    Except String (List SubscriptionRecord) × List String :=
  if env.event = "PURCHASE_APPROVED" then (handlePurchaseApproved env.data now db, [])
  else if env.event = "PURCHASE_COMPLETE" then (handlePurchaseComplete env.data db, [])
  else if env.event = "PURCHASE_CANCELED" then (handlePurchaseCanceled env.data now db, [])
  else if env.event = "PURCHASE_REFUNDED" then (handlePurchaseRefunded env.data now db, [])
  else if env.event = "PURCHASE_CHARGEBACK" then (handlePurchaseChargeback env.data now db, [])
  else (Except.ok db, ["Evento não tratado: " ++ env.event])

/-- Response of the webhook route: HTTP status plus the JSON body's
`status` and `message` fields. -/
structure WebhookResponse where
  httpStatus : Nat
  ackStatus : String
  message : String
deriving DecidableEq, Repr

/-- The `POST /webhook/hotmart` route: runs the dispatch inside a
try/catch; on normal completion it answers HTTP 200
`{status:'success'}`, and a thrown error is caught and answered with
HTTP 200 `{status:'error', message}` (the store keeps its pre-dispatch
state, since the handlers throw only before touching it). -/
def webhookHotmart (env : WebhookEnvelope) (now : Int)
    (db : List SubscriptionRecord) :
    List SubscriptionRecord × WebhookResponse :=
  match (processEvent env now db).1 with
  | Except.ok db2 =>
    (db2, { httpStatus := 200, ackStatus := "success"
            message := "Webhook processed successfully" })
  | Except.error m =>
    (db, { httpStatus := 200, ackStatus := "error", message := m })

/-- C2: the webhook route always answers HTTP 200 — for every envelope
and store state — and when the dispatched handling throws, the caught
error is answered as `{status:'error', message}` still at HTTP 200. -/
theorem webhook_always_200 (env : WebhookEnvelope) (now : Int)
    (db : List SubscriptionRecord) :
    (webhookHotmart env now db).2.httpStatus = 200 ∧
    (∀ m, (processEvent env now db).1 = Except.error m →
      (webhookHotmart env now db).2
        = { httpStatus := 200, ackStatus := "error", message := m }) := by
  constructor
  · unfold webhookHotmart
    rcases h : (processEvent env now db).1 with _ | _ <;> simp
  · intro m hm
    unfold webhookHotmart
    rw [hm]

/-- Witness for C2: a `PURCHASE_APPROVED` envelope with no `data` object
makes the handler throw, and the response is still HTTP 200 with an
error body. -/
theorem webhook_always_200_witness :
    (webhookHotmart { event := "PURCHASE_APPROVED", data := none } 0 []).2.httpStatus = 200 ∧
    (webhookHotmart { event := "PURCHASE_APPROVED", data := none } 0 []).2
      = { httpStatus := 200, ackStatus := "error", message := undefDataMsg } :=
  ⟨(webhook_always_200 { event := "PURCHASE_APPROVED", data := none } 0 []).1,
   (webhook_always_200 { event := "PURCHASE_APPROVED", data := none } 0 []).2
     undefDataMsg rfl⟩

/-- The five event tags the dispatcher handles. -/
def dispatchedEvents : List String :=
  ["PURCHASE_APPROVED", "PURCHASE_COMPLETE", "PURCHASE_CANCELED",
   "PURCHASE_REFUNDED", "PURCHASE_CHARGEBACK"]

/-- C7: an envelope whose tag is none of the five known tags takes the
default branch: the unknown tag is logged via `logger.warn`, the
subscription store is unchanged, and the response is HTTP 200 with
status `success`. -/
theorem webhook_unknown_event_ignored (env : WebhookEnvelope) (now : Int)
    (db : List SubscriptionRecord)
    (h : env.event ∉ dispatchedEvents) :
    processEvent env now db
      = (Except.ok db, ["Evento não tratado: " ++ env.event]) ∧
    webhookHotmart env now db
      = (db, { httpStatus := 200, ackStatus := "success"
               message := "Webhook processed successfully" }) := by
  simp only [dispatchedEvents, List.mem_cons, List.mem_singleton, not_or] at h
  obtain ⟨h1, h2, h3, h4, h5, -⟩ := h
  have hp : processEvent env now db
      = (Except.ok db, ["Evento não tratado: " ++ env.event]) := by
    simp [processEvent, h1, h2, h3, h4, h5]
  exact ⟨hp, by simp [webhookHotmart, hp]⟩

/-- Rows matched by email, as a Boolean predicate for counting. -/
def emailMatch (email : String) (r : SubscriptionRecord) : Bool :=
  r.user_email = email

lemma upsert_preserves_email (db : List SubscriptionRecord) (b : WebhookBuyer)
    (p : WebhookProduct) (pu : WebhookPurchase) (now : Int) :
    ∀ r ∈ upsertSubscription db b p pu now,
      r.user_email = b.email ∨ r ∈ db := by
  intro r hr
  unfold upsertSubscription at hr
  split at hr
  · rcases List.mem_map.mp hr with ⟨a, ha, rfl⟩
    by_cases hm : a.user_email = b.email
    · left; simp [hm]
    · right; simpa [hm] using ha
  · rcases List.mem_append.mp hr with h | h
    · right; exact h
    · left; rcases List.mem_singleton.mp h with rfl; rfl

lemma countP_map_email (db : List SubscriptionRecord) (email : String)
    (g : SubscriptionRecord → SubscriptionRecord)
    (hg : ∀ a, (g a).user_email = a.user_email) :
    (db.map g).countP (emailMatch email) = db.countP (emailMatch email) := by
  rw [List.countP_map]
  apply List.countP_congr
  intro a _
  simp [Function.comp, emailMatch, hg a]

lemma upsert_countP_one (db : List SubscriptionRecord) (b : WebhookBuyer)
    (p : WebhookProduct) (pu : WebhookPurchase) (now : Int)
    (h : db.countP (emailMatch b.email) ≤ 1) :
    (upsertSubscription db b p pu now).countP (emailMatch b.email) = 1 := by
  unfold upsertSubscription
  by_cases hany : db.any (fun r => r.user_email = b.email)
  · rw [if_pos hany]
    rw [countP_map_email db b.email _ (fun a => by
      by_cases hm : a.user_email = b.email <;> simp [hm])]
    have hpos : 0 < db.countP (emailMatch b.email) := by
      rcases List.any_eq_true.mp hany with ⟨a, ha, hpa⟩
      refine List.countP_pos_iff.mpr ⟨a, ha, ?_⟩
      simpa [emailMatch] using hpa
    omega
  · rw [if_neg hany]
    have hzero : db.countP (emailMatch b.email) = 0 := by
      refine List.countP_eq_zero.mpr ?_
      intro a ha hpa
      exact hany (List.any_eq_true.mpr ⟨a, ha, by simpa [emailMatch] using hpa⟩)
    rw [List.countP_append, hzero]
    simp [emailMatch]

/-- C3: handling `PURCHASE_APPROVED` for a buyer upserts the
subscription row keyed on the buyer's email with status `active`,
`starts_at = now`, `ends_at = now + 30` days, and the product / purchase
fields copied from the payload; starting from a store with at most one
row for that email (the unique-key invariant), the result has exactly
one row for that email, and a duplicate delivery of the approval event
still leaves exactly one row. -/
theorem approved_upsert_idempotent (db : List SubscriptionRecord)
    (b : WebhookBuyer) (p : WebhookProduct) (pu : WebhookPurchase)
    (now now2 : Int)
    (h : db.countP (emailMatch b.email) ≤ 1) :
    thirtyDaysMs = 2592000000 ∧
    handlePurchaseApproved
        (some { buyer := some b, product := some p, purchase := some pu }) now db
      = Except.ok (upsertSubscription db b p pu now) ∧
    (upsertSubscription db b p pu now).countP (emailMatch b.email) = 1 ∧
    (∀ r ∈ upsertSubscription db b p pu now, r.user_email = b.email →
      r.status = "active" ∧ r.starts_at = now ∧ r.ends_at = now + thirtyDaysMs ∧
      r.product_id = p.id ∧ r.product_name = p.name ∧
      r.purchase_token = pu.transaction) ∧
    (upsertSubscription (upsertSubscription db b p pu now) b p pu now2).countP
        (emailMatch b.email) = 1 := by
  refine ⟨rfl, rfl, upsert_countP_one db b p pu now h, ?_, ?_⟩
  · intro r hr hmail
    unfold upsertSubscription at hr
    split at hr
    · rcases List.mem_map.mp hr with ⟨a, _, rfl⟩
      by_cases hm : a.user_email = b.email
      · simp [hm]
      · simp only [if_neg hm] at hmail ⊢
        exact absurd hmail hm
    · rename_i hcond
      rcases List.mem_append.mp hr with hmem | hmem
      · exact absurd (List.any_eq_true.mpr ⟨r, hmem, decide_eq_true hmail⟩) hcond
      · rcases List.mem_singleton.mp hmem with rfl
        exact ⟨rfl, rfl, rfl, rfl, rfl, rfl⟩
  · exact upsert_countP_one _ b p pu now2
      (le_of_eq (upsert_countP_one db b p pu now h))

/-- Witness for C3: a fresh approval on the empty store followed by a
duplicate delivery. -/
theorem approved_upsert_idempotent_witness :
    thirtyDaysMs = 2592000000 ∧
    handlePurchaseApproved
        (some { buyer := some { email := "a@x.com" }
                product := some { id := "p1", name := "Prod" }
                purchase := some { transaction := "t1" } }) 10 []
      = Except.ok (upsertSubscription [] { email := "a@x.com" }
          { id := "p1", name := "Prod" } { transaction := "t1" } 10) ∧
    (upsertSubscription [] { email := "a@x.com" } { id := "p1", name := "Prod" }
        { transaction := "t1" } 10).countP (emailMatch "a@x.com") = 1 ∧
    (∀ r ∈ upsertSubscription [] { email := "a@x.com" }
        { id := "p1", name := "Prod" } { transaction := "t1" } 10,
      r.user_email = "a@x.com" →
      r.status = "active" ∧ r.starts_at = 10 ∧ r.ends_at = 10 + thirtyDaysMs ∧
      r.product_id = "p1" ∧ r.product_name = "Prod" ∧
      r.purchase_token = "t1") ∧
    (upsertSubscription (upsertSubscription [] { email := "a@x.com" }
        { id := "p1", name := "Prod" } { transaction := "t1" } 10)
        { email := "a@x.com" } { id := "p1", name := "Prod" }
        { transaction := "t1" } 20).countP (emailMatch "a@x.com") = 1 :=
  approved_upsert_idempotent [] { email := "a@x.com" }
    { id := "p1", name := "Prod" } { transaction := "t1" } 10 20 (by decide)

/-- All columns the cancel/refund/chargeback updates do not mention. -/
def OtherFieldsEq (r rp : SubscriptionRecord) : Prop :=
  rp.user_email = r.user_email ∧ rp.product_id = r.product_id ∧
  rp.product_name = r.product_name ∧ rp.purchase_token = r.purchase_token ∧
  rp.starts_at = r.starts_at ∧ rp.ends_at = r.ends_at ∧
  rp.created_at = r.created_at

/-- Row-wise contract of a lifecycle status update: the unmentioned
columns are unchanged, a row matching the email gets exactly the new
status and the single matching timestamp (the other two timestamps
untouched), and a non-matching row is fully unchanged. -/
def FrameStep (email st : String) (setStamp keep1 keep2 : SubscriptionRecord → Option Int)
    (now : Int) (r rp : SubscriptionRecord) : Prop :=
  OtherFieldsEq r rp ∧
  (r.user_email = email →
    rp.status = st ∧ setStamp rp = some now ∧
    keep1 rp = keep1 r ∧ keep2 rp = keep2 r) ∧
  (r.user_email ≠ email → rp = r)

lemma forall₂_map_self {α : Type} {P : α → α → Prop} (g : α → α)
    (l : List α) (h : ∀ a, P a (g a)) : List.Forall₂ P l (l.map g) := by
  induction l with
  | nil => exact List.Forall₂.nil
  | cons a t ih => exact List.Forall₂.cons (h a) ih

/-- C6: each of the cancel / refund / chargeback handlers rewrites only
the rows matching the buyer's email, and on those rows changes only the
`status` column and the single matching timestamp column
(`canceled_at` / `refunded_at` / `chargeback_at`, set to now); every
other column — and every non-matching row — is unchanged. -/
theorem lifecycle_updates_frame (db : List SubscriptionRecord)
    (email : String) (now : Int)
    (pr : Option WebhookProduct) (pu : Option WebhookPurchase) :
    handlePurchaseCanceled
        (some { buyer := some { email := email }, product := pr, purchase := pu }) now db
      = Except.ok (updateSubscriptionRows db email (cancelRow now)) ∧
    List.Forall₂
      (FrameStep email "canceled" SubscriptionRecord.canceled_at
        SubscriptionRecord.refunded_at SubscriptionRecord.chargeback_at now)
      db (updateSubscriptionRows db email (cancelRow now)) ∧
    handlePurchaseRefunded
        (some { buyer := some { email := email }, product := pr, purchase := pu }) now db
      = Except.ok (updateSubscriptionRows db email (refundRow now)) ∧
    List.Forall₂
      (FrameStep email "refunded" SubscriptionRecord.refunded_at
        SubscriptionRecord.canceled_at SubscriptionRecord.chargeback_at now)
      db (updateSubscriptionRows db email (refundRow now)) ∧
    handlePurchaseChargeback
        (some { buyer := some { email := email }, product := pr, purchase := pu }) now db
      = Except.ok (updateSubscriptionRows db email (chargebackRow now)) ∧
    List.Forall₂
      (FrameStep email "chargeback" SubscriptionRecord.chargeback_at
        SubscriptionRecord.canceled_at SubscriptionRecord.refunded_at now)
      db (updateSubscriptionRows db email (chargebackRow now)) := by
  refine ⟨rfl, ?_, rfl, ?_, rfl, ?_⟩ <;>
  · refine forall₂_map_self _ db (fun a => ?_)
    by_cases hm : a.user_email = email <;>
      simp [FrameStep, OtherFieldsEq, cancelRow, refundRow, chargebackRow, hm]

/-- Fixed sample subscription row used by concrete witnesses. -/
def sampleSub : SubscriptionRecord :=
  { user_email := "a@x.com", product_id := "p1", product_name := "Prod"
    purchase_token := "t1", status := "active", starts_at := 0, ends_at := 100
    canceled_at := none, refunded_at := none, chargeback_at := none
    created_at := 0 }

/-- Witness for C6: cancelling the sample row sets only `status` and
`canceled_at`, as given by the frame theorem at a concrete store. -/
theorem lifecycle_updates_frame_witness :
    updateSubscriptionRows [sampleSub] "a@x.com" (cancelRow 5)
      = [{ sampleSub with status := "canceled", canceled_at := some 5 }] ∧
    List.Forall₂
      (FrameStep "a@x.com" "canceled" SubscriptionRecord.canceled_at
        SubscriptionRecord.refunded_at SubscriptionRecord.chargeback_at 5)
      [sampleSub] (updateSubscriptionRows [sampleSub] "a@x.com" (cancelRow 5)) :=
  ⟨by simp [updateSubscriptionRows, sampleSub, cancelRow],
   (lifecycle_updates_frame [sampleSub] "a@x.com" 5 none none).2.1⟩

/-- Witness for C7 at the unknown tag `SOMETHING_ELSE`. -/
theorem webhook_unknown_event_ignored_witness :
    processEvent { event := "SOMETHING_ELSE", data := none } 0 []
      = (Except.ok [], ["Evento não tratado: SOMETHING_ELSE"]) ∧
    webhookHotmart { event := "SOMETHING_ELSE", data := none } 0 []
      = ([], { httpStatus := 200, ackStatus := "success"
               message := "Webhook processed successfully" }) :=
  webhook_unknown_event_ignored { event := "SOMETHING_ELSE", data := none } 0 []
    (by decide)

/-! ## Request validator (`validateGenerateRequest` middleware) -/

/-- A JavaScript value, to the granularity the validator observes. -/
inductive JsValue where
  | str (s : String)
  | num (n : Int)
  | boolean (b : Bool)
  | jsNull
  | undef
  | obj
deriving DecidableEq, Repr

/-- JavaScript truthiness (`!prompt` is the negation of this):
`undefined`, `null`, `false`, `0` and the empty string are falsy. -/
def jsTruthy : JsValue → Bool
  | JsValue.str s => s ≠ ""
  | JsValue.num n => n ≠ 0
  | JsValue.boolean b => b
  | JsValue.jsNull => false
  | JsValue.undef => false
  | JsValue.obj => true

/-- Whether `typeof v === 'string'`. -/
def isJsString : JsValue → Bool
  | JsValue.str _ => true
  | _ => false

/-- The string content of a value known to be a string. -/
def jsStringVal : JsValue → String
  | JsValue.str s => s
  | _ => ""

/-- `Array.prototype.includes` with strict equality: a non-string value
never equals any element of a string array. -/
def jsIncludes (l : List String) (v : JsValue) : Bool :=
  match v with
  | JsValue.str s => l.contains s
  | _ => false

/-- The fixed template whitelist from the source. -/
def validTemplates : List String :=
  ["instagram", "facebook", "ecommerce", "email", "google", "blog"]

/-- Outcome of a middleware: pass control to the route (`next()`) or
answer immediately with a status code and error message. -/
inductive MiddlewareResult where
  | callNext
  | respond (status : Nat) (error : String)
deriving DecidableEq, Repr

/-- The `String.prototype.trim` of JavaScript: strip leading and
trailing whitespace.  Implemented directly on the character list so it
evaluates by reduction. -/
def jsTrim (s : String) : String :=
  String.mk (((s.data.dropWhile Char.isWhitespace).reverse.dropWhile
    Char.isWhitespace).reverse)

/-- The `validateGenerateRequest` middleware: four checks in source
order, each short-circuiting with HTTP 400 and its own message. -/
def validateGenerateRequest (prompt template : JsValue) : MiddlewareResult :=
  if jsTruthy prompt = false ∨ isJsString prompt = false then
    MiddlewareResult.respond 400 "Prompt é obrigatório e deve ser uma string"
  else if (jsStringVal prompt).length > 1000 then
    MiddlewareResult.respond 400 "Prompt muito longo (máx: 1000 caracteres)"
  else if (jsTrim (jsStringVal prompt)).length = 0 then
    MiddlewareResult.respond 400 "Prompt não pode estar vazio"
  else if jsIncludes validTemplates template = false then
    MiddlewareResult.respond 400 "Template inválido"
  else MiddlewareResult.callNext

lemma jsIncludes_iff (l : List String) (v : JsValue) :
    jsIncludes l v = true ↔ ∃ t, v = JsValue.str t ∧ t ∈ l := by
  cases v <;> simp [jsIncludes]

lemma string_eq_empty_of_length_zero {s : String} (h : s.length = 0) :
    s = "" := by
  cases s with
  | mk data =>
    have hd : data = [] := List.length_eq_zero.mp h
    subst hd; rfl

/-- C5: the validator accepts exactly the requests whose prompt is a
non-blank string of 1 to 1000 characters paired with one of the six
templates, and its checks run in the fixed source order, each failure
short-circuiting with HTTP 400 and its own distinct message: prompt
truthy and a string, then length at most 1000, then non-blank after
trimming, then template in the whitelist. -/
theorem validate_order_and_acceptance (prompt template : JsValue) :
    (validateGenerateRequest prompt template = MiddlewareResult.callNext ↔
      ∃ s, prompt = JsValue.str s ∧ jsTrim s ≠ "" ∧ 1 ≤ s.length ∧
        s.length ≤ 1000 ∧ ∃ t, template = JsValue.str t ∧ t ∈ validTemplates) ∧
    ((jsTruthy prompt = false ∨ isJsString prompt = false) →
      validateGenerateRequest prompt template
        = MiddlewareResult.respond 400 "Prompt é obrigatório e deve ser uma string") ∧
    (∀ s, prompt = JsValue.str s → s ≠ "" → s.length > 1000 →
      validateGenerateRequest prompt template
        = MiddlewareResult.respond 400 "Prompt muito longo (máx: 1000 caracteres)") ∧
    (∀ s, prompt = JsValue.str s → s ≠ "" → s.length ≤ 1000 → jsTrim s = "" →
      validateGenerateRequest prompt template
        = MiddlewareResult.respond 400 "Prompt não pode estar vazio") ∧
    (∀ s, prompt = JsValue.str s → jsTrim s ≠ "" → s.length ≤ 1000 →
      jsIncludes validTemplates template = false →
      validateGenerateRequest prompt template
        = MiddlewareResult.respond 400 "Template inválido") ∧
    List.Pairwise (fun a b => a ≠ b)
      ["Prompt é obrigatório e deve ser uma string",
       "Prompt muito longo (máx: 1000 caracteres)",
       "Prompt não pode estar vazio", "Template inválido"] := by
  refine ⟨?_, ?_, ?_, ?_, ?_, by decide⟩
  · constructor
    · intro hok
      unfold validateGenerateRequest at hok
      split_ifs at hok with h1 h2 h3 h4
      push_neg at h1
      obtain ⟨ht, hstr⟩ := h1
      cases prompt with
      | str s =>
        refine ⟨s, rfl, ?_, ?_, ?_, ?_⟩
        · intro he
          apply h3
          simp only [jsStringVal, he]
          rfl
        · have hs : s ≠ "" := by
            intro he; rw [jsTruthy] at ht; simp [he] at ht
          have : s.length ≠ 0 :=
            fun hz => hs (string_eq_empty_of_length_zero hz)
          omega
        · simpa [jsStringVal] using h2
        · have h4' : jsIncludes validTemplates template = true := by
            simp at h4; exact h4
          exact (jsIncludes_iff _ _).mp h4'
      | num n => simp [isJsString] at hstr
      | boolean b => simp [isJsString] at hstr
      | jsNull => simp [isJsString] at hstr
      | undef => simp [isJsString] at hstr
      | obj => simp [isJsString] at hstr
    · rintro ⟨s, rfl, htrim, hpos, hlen, t, rfl, htmem⟩
      have hs : s ≠ "" := by
        intro he; subst he; exact htrim rfl
      have htlen : ¬ (jsTrim s).length = 0 :=
        fun hz => htrim (string_eq_empty_of_length_zero hz)
      unfold validateGenerateRequest
      rw [if_neg, if_neg, if_neg, if_neg]
      · rw [(jsIncludes_iff validTemplates (JsValue.str t)).mpr ⟨t, rfl, htmem⟩]
        simp
      · intro hx
        exact htlen (by simpa [jsStringVal] using hx)
      · simp [jsStringVal]; omega
      · simp [jsTruthy, isJsString, hs]
  · intro h1
    unfold validateGenerateRequest
    rw [if_pos h1]
  · rintro s rfl hs hlen
    unfold validateGenerateRequest
    rw [if_neg, if_pos]
    · simpa [jsStringVal] using hlen
    · simp [jsTruthy, isJsString, hs]
  · rintro s rfl hs hlen htrim
    unfold validateGenerateRequest
    rw [if_neg, if_neg, if_pos]
    · simp [jsStringVal, htrim]
    · simp [jsStringVal]; omega
    · simp [jsTruthy, isJsString, hs]
  · rintro s rfl htrim hlen hinc
    have hs : s ≠ "" := by
      intro he; subst he; exact htrim rfl
    have htlen : ¬ (jsTrim s).length = 0 :=
      fun hz => htrim (string_eq_empty_of_length_zero hz)
    unfold validateGenerateRequest
    rw [if_neg, if_neg, if_neg, if_pos hinc]
    · intro hx
      exact htlen (by simpa [jsStringVal] using hx)
    · simp [jsStringVal]; omega
    · simp [jsTruthy, isJsString, hs]

/-- Witness for C5: a concrete accepted request and one concrete
rejection per check, in order. -/
theorem validate_order_and_acceptance_witness :
    validateGenerateRequest (JsValue.str "hello") (JsValue.str "instagram")
      = MiddlewareResult.callNext ∧
    validateGenerateRequest JsValue.undef (JsValue.str "instagram")
      = MiddlewareResult.respond 400 "Prompt é obrigatório e deve ser uma string" ∧
    validateGenerateRequest (JsValue.str "  ") (JsValue.str "instagram")
      = MiddlewareResult.respond 400 "Prompt não pode estar vazio" ∧
    validateGenerateRequest (JsValue.str "hello") (JsValue.str "tiktok")
      = MiddlewareResult.respond 400 "Template inválido" :=
  ⟨(validate_order_and_acceptance (JsValue.str "hello") (JsValue.str "instagram")).1.mpr
     ⟨"hello", rfl, by decide, by decide, by decide, "instagram", rfl, by decide⟩,
   (validate_order_and_acceptance JsValue.undef (JsValue.str "instagram")).2.1
     (Or.inl rfl),
   (validate_order_and_acceptance (JsValue.str "  ") (JsValue.str "instagram")).2.2.2.1
     "  " rfl (by decide) (by decide) (by decide),
   (validate_order_and_acceptance (JsValue.str "hello") (JsValue.str "tiktok")).2.2.2.2.1
     "hello" rfl (by decide) (by decide) (by decide)⟩

/-! ## Post-processing of generated content (`postProcessContent`) -/

/-- Search for the closing `**` of the regex `\*\*(.*?)\*\*`: the text up
to the first pair of adjacent asterisks, provided no newline intervenes
(`.` does not match a newline).  Returns the inner text and the remainder
after the closing pair. -/
def splitAtClose : List Char → Option (List Char × List Char)
  | [] => none
  | [_] => none
  | c :: c2 :: rest =>
    if c = '\n' then none
    else if c = '*' ∧ c2 = '*' then some ([], rest)
    else (splitAtClose (c2 :: rest)).map (fun p => (c :: p.1, p.2))

/-- One pass of `content.replace(/\*\*(.*?)\*\*/g, '$1')`.  The `fuel`
argument only bounds the number of scanning steps: every step consumes at
least one character of the text, so calling with `fuel = text.length`
(as `stripBold` does) never exhausts it, and the function scans exactly
as the global lazy regex does: at `**` with a closing pair before the
next newline, the markers are dropped and scanning resumes after the
close; at `**` with no close in reach, scanning moves on by one
character; any other character is copied. -/
def stripBoldAux : Nat → List Char → List Char
  | _, [] => []
  | 0, l => l
  | fuel + 1, '*' :: '*' :: rest =>
    match splitAtClose rest with
    | some p => p.1 ++ stripBoldAux fuel p.2
    | none => '*' :: stripBoldAux fuel ('*' :: rest)
  | fuel + 1, c :: rest => c :: stripBoldAux fuel rest

/-- The `replace(/\*\*(.*?)\*\*/g, '$1')` step of `postProcessContent`. -/
def stripBold (l : List Char) : List Char := stripBoldAux l.length l

/-- One pass of `replace(/\n{3,}/g, '\n\n')`: every maximal run of three
or more newlines becomes exactly two.  As in `stripBoldAux`, the `fuel`
argument only bounds the number of steps; every step consumes at least
one character, so `fuel = text.length` (as `collapseNewlines` passes)
never runs out. -/
def collapseNewlinesAux : Nat → List Char → List Char
  | _, [] => []
  | 0, l => l
  | fuel + 1, c :: rest =>
    if c = '\n' then
      (if 2 ≤ (rest.takeWhile (fun x => x = '\n')).length then ['\n', '\n']
       else '\n' :: rest.takeWhile (fun x => x = '\n')) ++
      collapseNewlinesAux fuel (rest.dropWhile (fun x => x = '\n'))
    else c :: collapseNewlinesAux fuel rest

/-- The `replace(/\n{3,}/g, '\n\n')` step of `postProcessContent`. -/
def collapseNewlines (l : List Char) : List Char :=
  collapseNewlinesAux l.length l

/-- JavaScript `String.prototype.replace` with a plain-string pattern:
remove the first occurrence of `pat` (here the replacement is always the
empty string). -/
def removeFirstList (pat : List Char) : List Char → List Char
  | [] => []
  | c :: rest =>
    if pat.isPrefixOf (c :: rest) then (c :: rest).drop pat.length
    else c :: removeFirstList pat rest

/-- String wrapper of `removeFirstList`. -/
def removeFirst (s pat : String) : String :=
  String.mk (removeFirstList pat.data s.data)

/-- JavaScript `split('\n')` on the character list: the empty text gives
one empty field, and every newline starts a new field. -/
def splitLinesList : List Char → List (List Char)
  | [] => [[]]
  | c :: rest =>
    match splitLinesList rest with
    | [] => [[c]]
    | h :: t => if c = '\n' then [] :: h :: t else (c :: h) :: t

/-- String wrapper of `splitLinesList`, the `processed.split('\n')` of
the source. -/
def jsSplitNl (s : String) : List String :=
  (splitLinesList s.data).map String.mk

/-- JavaScript `join('\n')`. -/
def joinNl : List String → String
  | [] => ""
  | [s] => s
  | s :: rest => s ++ "\n" ++ joinNl rest

/-- JavaScript `substring(0, n)`: the first `n` characters. -/
def jsTake (s : String) (n : Nat) : String := String.mk (s.data.take n)

/-- The `postProcessContent(content, template)` function: strip `**`
emphasis, collapse runs of three or more newlines, trim; then, for the
`google` template with at least three lines, apply the three character
budgets.  Each budget check rebuilds `processed` from the ORIGINAL
`lines` array, exactly as the source does (so a later truncation
discards an earlier one). -/
def postProcessContent (content template : String) : String :=
  let processed := jsTrim (String.mk (collapseNewlines (stripBold content.data)))
  if template = "google" then
    let lines := jsSplitNl processed
    if 3 ≤ lines.length then
      let title1 := jsTrim (removeFirst (lines.getD 0 "") "Título 1:")
      let title2 := jsTrim (removeFirst (lines.getD 1 "") "Título 2:")
      let description := jsTrim (removeFirst (lines.getD 2 "") "Descrição:")
      let p1 := if 30 < title1.length then
          "Título 1: " ++ jsTake title1 30 ++ "\n" ++ joinNl (lines.drop 1)
        else processed
      let p2 := if 30 < title2.length then
          lines.getD 0 "" ++ "\n" ++ "Título 2: " ++ jsTake title2 30 ++ "\n"
            ++ joinNl (lines.drop 2)
        else p1
      let p3 := if 90 < description.length then
          lines.getD 0 "" ++ "\n" ++ lines.getD 1 "" ++ "\n" ++ "Descrição: "
            ++ jsTake description 90
        else p2
      p3
    else processed
  else processed

/-- A generated Google-ads output in the expected three-line layout whose
first title (35 characters) and second title (35 characters) both exceed
the 30-character budget, while the description fits its budget. -/
def googleBugInput : String :=
  "Título 1: AAAAAAAAAAAAAAAAAAAAAAAAAAAAAAAAAAA\nTítulo 2: BBBBBBBBBBBBBBBBBBBBBBBBBBBBBBBBBBB\nDescrição: short"

/-- C9: evaluation of `postProcessContent` at `googleBugInput` (template
`google`, expected layout, both titles over budget): the second title is
truncated to 30 characters, but the first title survives at 35
characters because the second truncation rebuilds the output from the
original untruncated lines, contradicting the claim that every field
exceeding its budget is truncated (and the block's stated purpose of
guaranteeing the Google Ads limits). -/
theorem postProcess_google_leaves_first_title_untruncated :
    postProcessContent googleBugInput "google"
      = "Título 1: AAAAAAAAAAAAAAAAAAAAAAAAAAAAAAAAAAA\nTítulo 2: BBBBBBBBBBBBBBBBBBBBBBBBBBBBBB\nDescrição: short" ∧
    (jsTrim (removeFirst
        ((jsSplitNl (postProcessContent googleBugInput "google")).getD 0 "")
        "Título 1:")).length = 35 ∧ 30 < 35 := by
  refine ⟨by decide, by decide, by decide⟩

/-! ## Generation route (`POST /api/generate`) -/

/-- Outcome of the DeepSeek call as the route observes it: a successful
response with the generated text and the optional token usage, or a
non-ok HTTP response (which the route turns into a thrown error). -/
inductive ProviderResult where
  | ok (content : String) (totalTokens : Option Nat)
  | httpError (status : Nat) (body : String)
deriving DecidableEq, Repr

/-- Outcome of the supabase insert of the generation record: success, a
returned store error object, or a thrown exception. -/
inductive SaveOutcome where
  | ok
  | storeError (msg : String)
  | thrown (msg : String)
deriving DecidableEq, Repr

/-- JSON response of the generate route. -/
structure GenerateResponse where
  status : Nat
  content : Option String
  tokens : Option Nat
  template : Option String
  error : Option String
deriving DecidableEq, Repr

/-- The `POST /api/generate` handler after validation, as a function of
the provider outcome and the save outcome: a provider failure is thrown
into the outer catch and answered 500; on provider success the content
is post-processed, the insert is attempted inside its own try/catch
whose failure is only logged (the returned list holds the error-log
messages of the save step), and the route answers 200 with the content,
token count and template. -/
def apiGenerate (template : String) (pr : ProviderResult) (save : SaveOutcome) :
    GenerateResponse × List String :=
  match pr with
  | ProviderResult.httpError _ _ =>
    ({ status := 500, content := none, tokens := none, template := none
       error := some "Erro ao gerar conteúdo" }, [])
  | ProviderResult.ok raw tk =>
    let generatedContent := postProcessContent raw template
    let saveLogs := match save with
      | SaveOutcome.ok => []
      | SaveOutcome.storeError _ => ["Erro ao salvar no Supabase"]
      | SaveOutcome.thrown _ => ["Database error:"]
    ({ status := 200, content := some generatedContent, tokens := tk
       template := some template, error := none }, saveLogs)

/-- C8: when the provider call succeeds but the insert of the generation
record fails — whether the store returns an error or the call throws —
the failure is logged and the route still answers HTTP 200 with the
generated content, identical to the response it gives when the save
succeeds. -/
theorem generate_store_failure_still_200 (template raw : String)
    (tk : Option Nat) (save : SaveOutcome)
    (hfail : save ≠ SaveOutcome.ok) :
    (apiGenerate template (ProviderResult.ok raw tk) save).1
      = { status := 200, content := some (postProcessContent raw template)
          tokens := tk, template := some template, error := none } ∧
    (apiGenerate template (ProviderResult.ok raw tk) save).1
      = (apiGenerate template (ProviderResult.ok raw tk) SaveOutcome.ok).1 ∧
    ((apiGenerate template (ProviderResult.ok raw tk) save).2
        = ["Erro ao salvar no Supabase"] ∨
      (apiGenerate template (ProviderResult.ok raw tk) save).2
        = ["Database error:"]) := by
  cases save with
  | ok => exact absurd rfl hfail
  | storeError m => exact ⟨rfl, rfl, Or.inl rfl⟩
  | thrown m => exact ⟨rfl, rfl, Or.inr rfl⟩

/-- Witness for C8 at a concrete failing insert. -/
theorem generate_store_failure_still_200_witness :
    (apiGenerate "instagram" (ProviderResult.ok "hello" (some 42))
        (SaveOutcome.storeError "connection refused")).1
      = { status := 200, content := some (postProcessContent "hello" "instagram")
          tokens := some 42, template := some "instagram", error := none } ∧
    (apiGenerate "instagram" (ProviderResult.ok "hello" (some 42))
        (SaveOutcome.storeError "connection refused")).1
      = (apiGenerate "instagram" (ProviderResult.ok "hello" (some 42))
          SaveOutcome.ok).1 ∧
    ((apiGenerate "instagram" (ProviderResult.ok "hello" (some 42))
        (SaveOutcome.storeError "connection refused")).2
        = ["Erro ao salvar no Supabase"] ∨
      (apiGenerate "instagram" (ProviderResult.ok "hello" (some 42))
        (SaveOutcome.storeError "connection refused")).2
        = ["Database error:"]) :=
  generate_store_failure_still_200 "instagram" "hello" (some 42)
    (SaveOutcome.storeError "connection refused") (by decide)

/-! ## Stats route (`GET /api/stats`) -/

/-- A row of `generated_content` as the stats query selects it. -/
structure GenRow where
  template_type : String
  created_at : Int
deriving DecidableEq, Repr

/-- Seven days in milliseconds, `7 * 24 * 60 * 60 * 1000` from the
source. -/
def sevenDaysMs : Int := 7 * 24 * 60 * 60 * 1000

/-- The `stats.byTemplate[t] = (stats.byTemplate[t] || 0) + 1` update on
the object modelled as an association list in insertion order. -/
def bumpTemplate : List (String × Nat) → String → List (String × Nat)
  | [], t => [(t, 1)]
  | (k, v) :: rest, t =>
    if k = t then (k, v + 1) :: rest else (k, v) :: bumpTemplate rest t

/-- The response body of `GET /api/stats`. -/
structure StatsResponse where
  total : Nat
  byTemplate : List (String × Nat)
  last7Days : Nat
deriving DecidableEq, Repr

/-- The `GET /api/stats` handler on a store state: the query returns the
rows with `created_at ≥ now - 7 days`, and the handler sets `total` and
`last7Days` to that row count and groups the same rows by template. -/
def apiStats (rows : List GenRow) (now : Int) : StatsResponse :=
  let data := rows.filter (fun r => now - sevenDaysMs ≤ r.created_at)
  { total := data.length
    byTemplate := data.foldl (fun m r => bumpTemplate m r.template_type) []
    last7Days := data.length }

/-- Sum of the per-template counts in the grouping object. -/
def sumCounts (m : List (String × Nat)) : Nat := (m.map Prod.snd).sum

lemma sumCounts_bumpTemplate (m : List (String × Nat)) (t : String) :
    sumCounts (bumpTemplate m t) = sumCounts m + 1 := by
  induction m with
  | nil => simp [bumpTemplate, sumCounts]
  | cons kv rest ih =>
    obtain ⟨k, v⟩ := kv
    by_cases hk : k = t <;> simp [bumpTemplate, hk, sumCounts] at ih ⊢ <;> omega

lemma sumCounts_foldl (data : List GenRow) (m : List (String × Nat)) :
    sumCounts (data.foldl (fun acc r => bumpTemplate acc r.template_type) m)
      = sumCounts m + data.length := by
  induction data generalizing m with
  | nil => simp
  | cons r rest ih =>
    simp only [List.foldl_cons, List.length_cons]
    rw [ih, sumCounts_bumpTemplate]
    omega

/-- C10: in every successful stats response, `total = last7Days`, both
equal the sum over the template types of the `byTemplate` counts, and
`total` counts only rows from the last seven days (the filtered rows),
not the whole table. -/
theorem stats_total_eq_last7Days_eq_sum (rows : List GenRow) (now : Int) :
    (apiStats rows now).total = (apiStats rows now).last7Days ∧
    (apiStats rows now).total = sumCounts (apiStats rows now).byTemplate ∧
    (apiStats rows now).total
      = (rows.filter (fun r => now - sevenDaysMs ≤ r.created_at)).length := by
  refine ⟨rfl, ?_, rfl⟩
  simp only [apiStats]
  rw [sumCounts_foldl]
  simp [sumCounts]

end BackendCopy
